import Mathlib

/-!
Verification development for the `coding-rules` repository.

The repository is a C++ teaching corpus.  The demonstration programs it
contains are nevertheless real code, so we give a shallow embedding of the
functions and classes that the specification talks about and settle the
specification's claims against them:

* `Rule60` embeds `src/rules/rule_60/good_example.cpp`:
  `module_a::processData`, `module_a::getRequiredBufferSize` and the
  class `module_a::SafeContainer`.
* `Rule63Good` embeds `src/rules/rule_63/good_example.cpp`
  (unnamed-namespace version of `mylib`), and `Rule63Bad` embeds the
  companion static-keyword version of the same file-local state and
  `mylib` interface.

C strings are embedded as `List Char` holding the characters before the
terminating NUL; a caller-supplied `char` buffer is a `List Char` whose
length is the allocated extent.  `size_t` is `Nat` and `int` is `Int`
(no arithmetic is performed on `int` values, so overflow cannot arise).
-/

namespace Rule60

/-- The NUL character written by `std::strcpy` as the terminator. -/
def nulChar : Char := Char.ofNat 0

/-- `std::toupper` in the default "C" locale: lowercase ASCII letters map
to their uppercase counterparts and every other character is unchanged. -/
def toupperChar (c : Char) : Char :=
  if ('a' ≤ c ∧ c ≤ 'z') then Char.ofNat (c.toNat - 32) else c

/-- Modelled behavior of `std::strcpy(dst, src)` on a destination region
`dst` (here the whole caller-supplied buffer, write position 0): the
characters of `src` and then the NUL terminator are copied to the front of
the region, and the region beyond position `src.length` keeps its previous
contents. -/
def strcpyList (dst : List Char) (src : List Char) : List Char :=
  src ++ nulChar :: dst.drop (src.length + 1)

/-- The ascending in-place loop of `module_a::processData`
(`for (i = 0; i < n; ++i) buf[i] = std::toupper(buf[i]);`): it replaces
each of the first `n` characters of the buffer by its uppercase image and
leaves the rest of the buffer unchanged. -/
def upperLoop : List Char → Nat → List Char
  | buf, 0 => buf
  | [], _ + 1 => []
  | c :: cs, n + 1 => toupperChar c :: upperLoop cs n

/-- `module_a::processData(outputBuffer, bufferSize, input)` from
`src/rules/rule_60/good_example.cpp` lines 147-160.  The C function
mutates the caller's buffer and returns a `bool`; the embedding returns
the pair (return value, buffer contents after the call).  It computes
`inputLen = strlen(input)`, returns `false` without touching the buffer
when `inputLen >= bufferSize`, and otherwise copies the input with
`strcpy` and uppercases the first `inputLen` buffer characters. -/
def processData (outputBuffer : List Char) (bufferSize : Nat)
    (input : List Char) : Bool × List Char :=
  let inputLen := input.length
  if inputLen ≥ bufferSize then
    (false, outputBuffer)
  else
    (true, upperLoop (strcpyList outputBuffer input) inputLen)

/-- `module_a::getRequiredBufferSize(input)`: `strlen(input) + 1`. -/
def getRequiredBufferSize (input : List Char) : Nat :=
  input.length + 1

theorem upperLoop_append (l rest : List Char) :
    upperLoop (l ++ rest) l.length = l.map toupperChar ++ rest := by
  induction l with
  | nil => simp [upperLoop]
  | cons c cs ih => simpa [upperLoop] using ih

theorem processData_fst_false_iff (buffer : List Char) (bufferSize : Nat)
    (input : List Char) :
    (processData buffer bufferSize input).fst = false ↔
      bufferSize ≤ input.length := by
  unfold processData
  by_cases h : input.length ≥ bufferSize <;> simp [h]

theorem processData_exact (input buffer : List Char)
    (h : buffer.length = getRequiredBufferSize input) :
    processData buffer (getRequiredBufferSize input) input =
      (true, input.map toupperChar ++ [nulChar]) := by
  have hlt : ¬ input.length ≥ getRequiredBufferSize input := by
    simp [getRequiredBufferSize]
  have hdrop : buffer.drop (input.length + 1) = [] := by
    apply List.drop_eq_nil_of_le
    simp [h, getRequiredBufferSize]
  unfold processData
  simp only [hlt, if_neg, ge_iff_le, not_le]
  have : strcpyList buffer input = input ++ [nulChar] := by
    simp [strcpyList, hdrop]
  simp [getRequiredBufferSize, this, upperLoop_append input [nulChar]]

/-- `module_a::SafeContainer` (lines 233-269): the private members
`int* data_` and `size_t size_`.  The allocated region behind `data_` is
embedded as the list of its `int` elements; a null `data_` is the empty
list. -/
structure SafeContainer where
  data : List Int
  size : Nat
deriving DecidableEq

namespace SafeContainer

/-- The constructor `SafeContainer(size_t size)`: allocates `size`
elements and zero-fills them in the constructor body loop. -/
def ofSize (size : Nat) : SafeContainer :=
  ⟨List.replicate size 0, size⟩

/-- `void set(size_t index, int value)`: writes `data_[index] = value`
only when `index < size_`, else does nothing. -/
def set (c : SafeContainer) (index : Nat) (value : Int) : SafeContainer :=
  if index < c.size then { c with data := c.data.set index value } else c

/-- `int get(size_t index) const`: `(index < size_) ? data_[index] : 0`. -/
def get (c : SafeContainer) (index : Nat) : Int :=
  if index < c.size then c.data.getD index 0 else 0

/-- The move constructor `SafeContainer(SafeContainer&&)`: the new object
takes over `other.data_` and `other.size_` unchanged. -/
def moveTarget (other : SafeContainer) : SafeContainer :=
  ⟨other.data, other.size⟩

/-- The state the move constructor leaves the moved-from object in:
`other.data_ = nullptr; other.size_ = 0;`. -/
def movedFrom (_ : SafeContainer) : SafeContainer :=
  ⟨[], 0⟩

/-- The representation invariant relating the pointer and the stored
size: the allocation behind `data_` holds exactly `size_` elements. -/
def Inv (c : SafeContainer) : Prop :=
  c.data.length = c.size

theorem Inv_ofSize (n : Nat) : Inv (ofSize n) := by
  simp [Inv, ofSize]

theorem Inv_set (c : SafeContainer) (i : Nat) (v : Int) (h : Inv c) :
    Inv (set c i v) := by
  unfold set
  by_cases hi : i < c.size <;> simp [hi, Inv] at h ⊢ <;> simpa [Inv] using h

theorem Inv_moveTarget (c : SafeContainer) (h : Inv c) :
    Inv (moveTarget c) := h

theorem Inv_movedFrom (c : SafeContainer) : Inv (movedFrom c) := rfl

theorem not_Inv_example : ¬ Inv ⟨[], 1⟩ := by
  simp [Inv]

end SafeContainer

theorem getD_set_self (l : List Int) (i : Nat) (v : Int)
    (h : i < l.length) : (l.set i v).getD i 0 = v := by
  induction l generalizing i with
  | nil => simp at h
  | cons a t ih =>
    cases i with
    | zero => rfl
    | succ j => simpa using ih j (by simpa using h)

theorem getD_set_ne (l : List Int) (i j : Nat) (v : Int) (hne : j ≠ i) :
    (l.set i v).getD j 0 = l.getD j 0 := by
  induction l generalizing i j with
  | nil => simp
  | cons a t ih =>
    cases i with
    | zero =>
      cases j with
      | zero => exact absurd rfl hne
      | succ k => rfl
    | succ m =>
      cases j with
      | zero => rfl
      | succ k => simpa using ih m k (fun hk => hne (by simp [hk]))

end Rule60

/-- `struct CacheEntry { std::string key; std::string value; long timestamp; }`
from the rule 63 examples (the unnamed-namespace and the static version
declare the identical struct). -/
structure CacheEntry where
  key : String
  value : String
  timestamp : Int
deriving DecidableEq

/-- The file-local mutable state of the rule 63 translation units plus
the observable console output: `logger` only ever prints, so the
observable effect of the `Logger` object is the list of printed lines,
and `cache` is the `std::vector<CacheEntry>`. -/
structure LibState where
  out : List String
  cache : List CacheEntry
deriving DecidableEq

/-- One call into the public `mylib` interface of rule 63. -/
inductive LibCall where
  | processData (data : String)
  | cacheData (key value : String)
deriving DecidableEq

namespace Rule63Good

/-- `Logger::log(message)` of `src/rules/rule_63/good_example.cpp`:
prints the line `[LOG] <message>`. -/
def loggerLog (s : LibState) (message : String) : LibState :=
  { s with out := s.out ++ ["[LOG] " ++ message] }

/-- `isValidInput` (unnamed namespace): nonempty and shorter than 100. -/
def isValidInput (input : String) : Bool :=
  !input.isEmpty && input.length < 100

/-- `constexpr int MAX_RETRIES = 3`. -/
def MAX_RETRIES : Nat := 3

/-- `logError` (unnamed namespace): logs `ERROR: <error>`. -/
def logError (s : LibState) (error : String) : LibState :=
  loggerLog s ("ERROR: " ++ error)

/-- The retry loop of `mylib::processData`
(`for (int i = 0; i < MAX_RETRIES; ++i) logger.log("Attempt " + to_string(i+1))`),
counting `k` remaining iterations with current index `i`. -/
def attemptsFrom (s : LibState) (i : Nat) : Nat → LibState
  | 0 => s
  | k + 1 => attemptsFrom (loggerLog s ("Attempt " ++ toString (i + 1))) (i + 1) k

/-- `mylib::processData(data)` of the unnamed-namespace version. -/
def processData (s : LibState) (data : String) : LibState :=
  if !(isValidInput data) then
    logError s "Invalid input"
  else
    attemptsFrom (loggerLog s ("Processing: " ++ data)) 0 MAX_RETRIES

/-- `mylib::cacheData(key, value)` of the unnamed-namespace version:
pushes `CacheEntry{key, value, 0}` onto the file-local cache and logs
`Cached: <key>`. -/
def cacheData (s : LibState) (key value : String) : LibState :=
  loggerLog { s with cache := s.cache ++ [⟨key, value, 0⟩] } ("Cached: " ++ key)

/-- Effect of one `mylib` call in the unnamed-namespace version. -/
def step (s : LibState) : LibCall → LibState
  | .processData d => processData s d
  | .cacheData k v => cacheData s k v

/-- Effect of a sequence of `mylib` calls in the unnamed-namespace
version, starting from state `s`. -/
def run (s : LibState) : List LibCall → LibState
  | [] => s
  | c :: cs => run (step s c) cs

end Rule63Good

namespace Rule63Bad

/-- `Logger::log(message)` of the static-keyword version of the rule 63
file: prints the line `[LOG] <message>`. -/
def loggerLog (s : LibState) (message : String) : LibState :=
  { s with out := s.out ++ ["[LOG] " ++ message] }

/-- `static bool isValidInput(input)`: nonempty and shorter than 100. -/
def isValidInput (input : String) : Bool :=
  !input.isEmpty && input.length < 100

/-- `static constexpr int MAX_RETRIES = 3`. -/
def MAX_RETRIES : Nat := 3

/-- `static void logError(error)`: logs `ERROR: <error>`. -/
def logError (s : LibState) (error : String) : LibState :=
  loggerLog s ("ERROR: " ++ error)

/-- The retry loop of the static version's `mylib::processData`. -/
def attemptsFrom (s : LibState) (i : Nat) : Nat → LibState
  | 0 => s
  | k + 1 => attemptsFrom (loggerLog s ("Attempt " ++ toString (i + 1))) (i + 1) k

/-- `mylib::processData(data)` of the static-keyword version. -/
def processData (s : LibState) (data : String) : LibState :=
  if !(isValidInput data) then
    logError s "Invalid input"
  else
    attemptsFrom (loggerLog s ("Processing: " ++ data)) 0 MAX_RETRIES

/-- `mylib::cacheData(key, value)` of the static-keyword version. -/
def cacheData (s : LibState) (key value : String) : LibState :=
  loggerLog { s with cache := s.cache ++ [⟨key, value, 0⟩] } ("Cached: " ++ key)

/-- Effect of one `mylib` call in the static-keyword version. -/
def step (s : LibState) : LibCall → LibState
  | .processData d => processData s d
  | .cacheData k v => cacheData s k v

/-- Effect of a sequence of `mylib` calls in the static-keyword version. -/
def run (s : LibState) : List LibCall → LibState
  | [] => s
  | c :: cs => run (step s c) cs

end Rule63Bad

theorem step_good_eq_bad (s : LibState) (c : LibCall) :
    Rule63Good.step s c = Rule63Bad.step s c := by
  cases c <;> rfl

theorem roundTrip_fst_true (s buffer : List Char) :
    (Rule60.processData buffer (Rule60.getRequiredBufferSize s) s).fst
      = true := by
  simp [Rule60.processData, Rule60.getRequiredBufferSize]

/-- Claim C1, counterexample: `module_a::processData` called on the same
two-byte buffer with the inputs `"a"` and `"b"` produces two different
results (buffer contents `"A"` versus `"B"`), so its observable output is
not a fixed string independent of its input. -/
theorem C1_cex :
    Rule60.processData ['x', 'x'] 2 ['a'] ≠
      Rule60.processData ['x', 'x'] 2 ['b'] := by
  decide

/-- Claim C1 (amended): the corpus does contain an operation whose output
varies with its arguments; `module_a::processData` returns different
buffer contents for different inputs. -/
theorem C1_output_varies :
    ∃ (buffer : List Char) (bufferSize : Nat) (s₁ s₂ : List Char),
      Rule60.processData buffer bufferSize s₁ ≠
        Rule60.processData buffer bufferSize s₂ := by
  exact ⟨['x', 'x'], 2, ['a'], ['b'], by decide⟩

/-- Claim C2, counterexample: the claim denies that the round-trip law
holds for every input, but the law does hold universally, so the claim's
negation (stated here as the double negation of the law) is provable. -/
theorem C2_cex :
    ¬ ¬ (∀ (s buffer : List Char),
      buffer.length = Rule60.getRequiredBufferSize s →
        (Rule60.processData buffer (Rule60.getRequiredBufferSize s) s).fst
          = true) := by
  intro h
  exact h (fun s buffer _ => roundTrip_fst_true s buffer)

/-- Claim C2 (amended): a round-trip law does hold between
`module_a::getRequiredBufferSize` and `module_a::processData`: for every
input string `s`, calling `processData` with a buffer whose size is
`getRequiredBufferSize(s)` returns `true`. -/
theorem C2_roundTrip (s buffer : List Char)
    (_h : buffer.length = Rule60.getRequiredBufferSize s) :
    (Rule60.processData buffer (Rule60.getRequiredBufferSize s) s).fst
      = true :=
  roundTrip_fst_true s buffer

/-- Claim C2, witness: the round-trip law at the concrete input `"hi"`
with a concrete freshly allocated 3-byte buffer. -/
theorem C2_roundTrip_witness :
    (['x', 'y', 'z'] : List Char).length =
        Rule60.getRequiredBufferSize ['h', 'i'] ∧
      (Rule60.processData ['x', 'y', 'z']
        (Rule60.getRequiredBufferSize ['h', 'i']) ['h', 'i']).fst = true :=
  ⟨by decide, C2_roundTrip ['h', 'i'] ['x', 'y', 'z'] (by decide)⟩

/-- Claim C3, counterexample: there is a nontrivial predicate on
`SafeContainer`'s state relating its pointer and its stored size — the
allocation length equals `size_` — that holds after construction and is
preserved by `set`, by `get` (which does not modify the state at all) and
by move construction (for both the move target and the moved-from
object). -/
theorem C3_cex :
    ∃ P : Rule60.SafeContainer → Prop,
      (∃ c, ¬ P c) ∧
      (∀ n, P (Rule60.SafeContainer.ofSize n)) ∧
      (∀ c i v, P c → P (Rule60.SafeContainer.set c i v)) ∧
      (∀ c, P c →
        P (Rule60.SafeContainer.moveTarget c) ∧
          P (Rule60.SafeContainer.movedFrom c)) := by
  refine ⟨Rule60.SafeContainer.Inv,
    ⟨⟨[], 1⟩, Rule60.SafeContainer.not_Inv_example⟩,
    Rule60.SafeContainer.Inv_ofSize,
    Rule60.SafeContainer.Inv_set,
    fun c h => ⟨Rule60.SafeContainer.Inv_moveTarget c h,
      Rule60.SafeContainer.Inv_movedFrom c⟩⟩

/-- Claim C3 (amended): `SafeContainer` does maintain an invariant
relating its pointer and its stored size — the allocated region holds
exactly `size_` elements — established by the constructor and preserved
by `set`, `get` and move construction. -/
theorem C3_invariant (n : Nat) (c : Rule60.SafeContainer) (i : Nat)
    (v : Int) :
    Rule60.SafeContainer.Inv (Rule60.SafeContainer.ofSize n) ∧
      (Rule60.SafeContainer.Inv c →
        Rule60.SafeContainer.Inv (Rule60.SafeContainer.set c i v)) ∧
      (Rule60.SafeContainer.Inv c →
        Rule60.SafeContainer.Inv (Rule60.SafeContainer.moveTarget c) ∧
          Rule60.SafeContainer.Inv (Rule60.SafeContainer.movedFrom c)) :=
  ⟨Rule60.SafeContainer.Inv_ofSize n,
    Rule60.SafeContainer.Inv_set c i v,
    fun h => ⟨Rule60.SafeContainer.Inv_moveTarget c h,
      Rule60.SafeContainer.Inv_movedFrom c⟩⟩

/-- Claim C3, witness: the invariant at the concrete container of size 2,
before and after a `set`. -/
theorem C3_invariant_witness :
    Rule60.SafeContainer.Inv (Rule60.SafeContainer.ofSize 2) ∧
      Rule60.SafeContainer.Inv
        (Rule60.SafeContainer.set (Rule60.SafeContainer.ofSize 2) 0 5) :=
  ⟨(C3_invariant 2 (Rule60.SafeContainer.ofSize 2) 0 5).1,
    (C3_invariant 2 (Rule60.SafeContainer.ofSize 2) 0 5).2.1 rfl⟩

/-- Claim C4, counterexample: the claim denies that any function returns
a success/failure indicator determined by a stated condition on its
inputs, but `module_a::processData`'s return value is determined by the
condition `strlen(input) >= bufferSize`; the claim's negation (the double
negation of that characterization) is provable. -/
theorem C4_cex :
    ¬ ¬ (∀ (buffer : List Char) (bufferSize : Nat) (input : List Char),
      (Rule60.processData buffer bufferSize input).fst = false ↔
        bufferSize ≤ input.length) := by
  intro h
  exact h Rule60.processData_fst_false_iff

/-- Claim C4 (amended): `module_a::processData` implements a testable
error result: it returns `false` exactly when `strlen(input)` is at least
the supplied buffer size. -/
theorem C4_error_result (buffer : List Char) (bufferSize : Nat)
    (input : List Char) :
    (Rule60.processData buffer bufferSize input).fst = false ↔
      bufferSize ≤ input.length :=
  Rule60.processData_fst_false_iff buffer bufferSize input

/-- Claim C5: the unnamed-namespace version and the static-keyword
version of the rule 63 `mylib` interface are behaviorally identical: for
every sequence of calls with the same arguments, starting from the same
file-local state, they produce identical log output and identical cache
contents. -/
theorem C5_good_bad_equiv (calls : List LibCall) (s : LibState) :
    Rule63Good.run s calls = Rule63Bad.run s calls := by
  induction calls generalizing s with
  | nil => rfl
  | cons c cs ih =>
    show Rule63Good.run (Rule63Good.step s c) cs =
      Rule63Bad.run (Rule63Bad.step s c) cs
    rw [step_good_eq_bad]
    exact ih _

/-- Claim C6, counterexample: `mylib::cacheData` is history-dependent:
calling it with the arguments `("key1", "value1")` after an empty history
and after a history of one identical call leaves different cache
contents (one entry versus two). -/
theorem C6_cex :
    (Rule63Good.cacheData
        (Rule63Good.cacheData ⟨[], []⟩ "key1" "value1")
        "key1" "value1").cache ≠
      (Rule63Good.cacheData ⟨[], []⟩ "key1" "value1").cache := by
  decide

/-- Claim C6 (amended): not every operation in the corpus is stateless:
the rule 63 translation unit owns file-local mutable state, and each call
to `mylib::cacheData` appends one entry to the shared cache, so the
observable effect of a call depends on the prior call history. -/
theorem C6_cache_accumulates (s : LibState) (key value : String) :
    (Rule63Good.cacheData s key value).cache =
        s.cache ++ [⟨key, value, 0⟩] ∧
      (Rule63Good.cacheData s key value).cache.length =
        s.cache.length + 1 := by
  constructor
  · rfl
  · simp [Rule63Good.cacheData, Rule63Good.loggerLog]

/-- Claim C7: `module_a::processData(buffer, n, s)` returns `false` if
and only if `strlen(s) >= n`, and when it returns `false` the caller's
buffer is unchanged. -/
theorem C7_processData_error (buffer : List Char) (bufferSize : Nat)
    (input : List Char) :
    ((Rule60.processData buffer bufferSize input).fst = false ↔
        bufferSize ≤ input.length) ∧
      ((Rule60.processData buffer bufferSize input).fst = false →
        (Rule60.processData buffer bufferSize input).snd = buffer) := by
  refine ⟨Rule60.processData_fst_false_iff buffer bufferSize input, ?_⟩
  intro h
  have hle : bufferSize ≤ input.length :=
    (Rule60.processData_fst_false_iff buffer bufferSize input).1 h
  simp [Rule60.processData, ge_iff_le, hle]

/-- Claim C7, witness: at the concrete call with a 1-byte buffer and the
input `"ab"`, `processData` fails and the buffer keeps its previous
contents. -/
theorem C7_processData_error_witness :
    (Rule60.processData ['x'] 1 ['a', 'b']).fst = false ∧
      (Rule60.processData ['x'] 1 ['a', 'b']).snd = ['x'] :=
  ⟨by decide, (C7_processData_error ['x'] 1 ['a', 'b']).2 (by decide)⟩

/-- Claim C8: for every input string `s` and every buffer of size
`getRequiredBufferSize(s)`, `processData` returns `true` and leaves the
buffer holding exactly the uppercase image of `s` followed by the
terminating NUL. -/
theorem C8_processData_exact (input buffer : List Char)
    (h : buffer.length = Rule60.getRequiredBufferSize input) :
    Rule60.processData buffer (Rule60.getRequiredBufferSize input) input =
      (true, input.map Rule60.toupperChar ++ [Rule60.nulChar]) :=
  Rule60.processData_exact input buffer h

/-- Claim C8, witness: processing `"ab"` into a fresh 3-byte buffer
succeeds and yields the buffer contents `"AB"` plus the NUL terminator. -/
theorem C8_processData_exact_witness :
    Rule60.processData ['x', 'y', 'z']
        (Rule60.getRequiredBufferSize ['a', 'b']) ['a', 'b'] =
      (true, ['A', 'B', Rule60.nulChar]) := by
  rw [C8_processData_exact ['a', 'b'] ['x', 'y', 'z'] (by decide)]
  decide

/-- Claim C9: on any `SafeContainer` whose allocation holds `size_`
elements, `set(i, v)` stores `v` at index `i` and leaves every other
index unchanged when `i < size_`, and leaves the container entirely
unchanged otherwise; `get(i)` reads the stored element when `i < size_`
and returns 0 otherwise — so neither operation ever touches an index
outside the `size_` allocated elements. -/
theorem C9_safeContainer_bounds (c : Rule60.SafeContainer)
    (hlen : c.data.length = c.size) (i : Nat) (v : Int) :
    (i < c.size →
      (Rule60.SafeContainer.set c i v).get i = v ∧
        ∀ j, j ≠ i →
          (Rule60.SafeContainer.set c i v).get j =
            Rule60.SafeContainer.get c j) ∧
      (¬ i < c.size → Rule60.SafeContainer.set c i v = c) ∧
      (i < c.size →
        Rule60.SafeContainer.get c i = c.data.getD i 0) ∧
      (¬ i < c.size → Rule60.SafeContainer.get c i = 0) := by
  refine ⟨?_, ?_, ?_, ?_⟩
  · intro hi
    constructor
    · simp only [Rule60.SafeContainer.set, Rule60.SafeContainer.get, hi,
        if_pos]
      exact Rule60.getD_set_self c.data i v (by rw [hlen]; exact hi)
    · intro j hj
      by_cases hjs : j < c.size
      · simp only [Rule60.SafeContainer.set, Rule60.SafeContainer.get, hi,
          hjs, if_pos]
        exact Rule60.getD_set_ne c.data i j v hj
      · simp [Rule60.SafeContainer.set, Rule60.SafeContainer.get, hi, hjs]
  · intro hi
    simp [Rule60.SafeContainer.set, hi]
  · intro hi
    simp [Rule60.SafeContainer.get, hi]
  · intro hi
    simp [Rule60.SafeContainer.get, hi]

/-- Claim C9, witness: on the concrete container of size 3, `set 1 7`
makes `get 1` return 7 while `get 0` still returns 0, an out-of-bounds
`set 5` leaves the container unchanged, and an out-of-bounds `get 5`
returns 0. -/
theorem C9_safeContainer_bounds_witness :
    ((Rule60.SafeContainer.set (Rule60.SafeContainer.ofSize 3) 1 7).get 1
        = 7) ∧
      (Rule60.SafeContainer.set (Rule60.SafeContainer.ofSize 3) 5 7 =
        Rule60.SafeContainer.ofSize 3) ∧
      Rule60.SafeContainer.get (Rule60.SafeContainer.ofSize 3) 5 = 0 :=
  ⟨((C9_safeContainer_bounds (Rule60.SafeContainer.ofSize 3) rfl 1 7).1
      (by decide)).1,
    (C9_safeContainer_bounds (Rule60.SafeContainer.ofSize 3) rfl 5 7).2.1
      (by decide),
    (C9_safeContainer_bounds (Rule60.SafeContainer.ofSize 3) rfl 5
      7).2.2.2 (by decide)⟩
